import Mathlib

/-!
Verification of the music_database reconciliation pipeline.

Shallow embedding of the Rust sources:
  * `src/models.rs`     — `NewMediaFileInfo`, `MediaFileInfo`, `MediaFileInfoDocument`,
                          `MediaFileInfo::to_document`
  * `src/database.rs`   — `DatabaseConnection::{fetch_file, insert_file, update_file,
                          update_file_uuid, get_acoustid_last_check,
                          add_acoustid_last_check, update_acoustid_last_check}`
  * `src/acoustid.rs`   — `AcoustId::{handle_response, parse_file}`
  * `src/file_processor.rs` — `FileProcessor::{call, insert_path_entry,
                          check_if_update_needed, update_path_entry, handle_acoustid}`
  * `src/elasticsearch.rs` — `ElasticSearch::insert_document` (keying only)

Conventions of the embedding:
  * timestamps are `Int` seconds since the Unix epoch (the code only compares
    `DateTime::timestamp()` values; `Utc.timestamp(0, 0)` is `0`);
  * MusicBrainz UUIDs are opaque `Nat` values with a string rendering;
  * `u32` fields are `Nat`; the one place the code casts `u32 as i32`
    (`to_document`) is modelled with the explicit two's-complement wrap;
  * the database is a pair of row lists (`library`, `acoustid_last_checks`)
    in table order; a diesel/postgres query that takes the first matching row
    is `List.find?`;
  * a Rust `panic!`/`.expect(..)` failure is the `DbAbort` outcome — it aborts
    the worker instead of producing a value;
  * the effectful reconciliation pass is a pure function from the per-pass
    environment (current time, filesystem mtime, metadata-read result,
    AcoustID lookup outcome, the id the store would assign on insert) to the
    new database state plus a trace of the side effects (`Event` list).
-/

/-- Opaque MusicBrainz recording identifier (`uuid::Uuid` in the source). -/
abbrev Uuid := Nat

/-- String rendering of a `Uuid` (`Uuid::to_string` in the source). -/
def uuidToString (u : Uuid) : String := toString u

/-- Two's-complement reinterpretation of a `u32` value as an `i32`
(the Rust `as i32` cast used in `MediaFileInfo::to_document`). -/
def u32_as_i32 (n : Nat) : Int :=
  if n < 2 ^ 31 then (n : Int) else (n : Int) - 2 ^ 32

/-- `models.rs`: freshly read, not yet persisted metadata
(`NewMediaFileInfo`). -/
structure NewMediaFileInfo where
  path : String
  title : Option String
  artist : Option String
  album : Option String
  track : Option String
  track_number : Nat
  duration : Nat
  mtime : Option Int
deriving Repr, DecidableEq

/-- `models.rs`: a persisted `library` row (`MediaFileInfo`). -/
structure MediaFileInfo where
  id : Int
  path : String
  title : Option String
  artist : Option String
  album : Option String
  track : Option String
  track_number : Nat
  duration : Nat
  mbid : Option Uuid
  mtime : Option Int
deriving Repr, DecidableEq

/-- `models.rs`: the Elasticsearch document (`MediaFileInfoDocument`);
`track_number` and `duration` are `i32` there, `mbid` a rendered string. -/
structure MediaFileInfoDocument where
  id : Int
  path : String
  title : Option String
  artist : Option String
  album : Option String
  track : Option String
  track_number : Int
  duration : Int
  mbid : Option String
deriving Repr, DecidableEq

/-- `models.rs`: `MediaFileInfo::to_document`. -/
def MediaFileInfo.to_document (v : MediaFileInfo) : MediaFileInfoDocument :=
  { id := v.id
    path := v.path
    title := v.title
    artist := v.artist
    album := v.album
    track := v.track
    track_number := u32_as_i32 v.track_number
    duration := u32_as_i32 v.duration
    mbid := v.mbid.map uuidToString }

/-- `elasticsearch.rs`: `ElasticSearch::insert_document` performs
`document_index(INDEX_NAME, doc.id.into(), doc)`; the upsert key is the
document's `id` field. Modelled as the key/document pair sent to the index. -/
def insert_document (doc : MediaFileInfoDocument) : Int × MediaFileInfoDocument :=
  (doc.id, doc)

/-- A row of the `acoustid_last_checks` table. -/
structure LastCheckRow where
  library_id : Int
  last_check : Int
deriving Repr, DecidableEq

/-- The persistent store: the `library` table and the `acoustid_last_checks`
table, each as a list of rows in table order. -/
structure Db where
  library : List MediaFileInfo
  last_checks : List LastCheckRow
deriving Repr, DecidableEq

/-- A Rust panic inside a database call (`.expect(..)` in `database.rs`).
`fetchNotFound` is the `expect` on diesel's `NotFound` in `fetch_file`;
`insertUniqueViolation` is the `expect` on the insert error in `insert_file`. -/
inductive DbAbort
  | fetchNotFound
  | insertUniqueViolation
deriving Repr, DecidableEq

/-- `database.rs`: `DatabaseConnection::fetch_file`. The diesel query
`library.filter(path.eq(&file_path)).first::<MediaFileInfo>(..)` yields the
first row whose `path` column equals `file_path`, or diesel's `NotFound`
error when there is none; the source calls `.expect(..)` on that result and
then wraps the row in `Ok(Some(..))`. A missing row therefore panics: the
function never produces `Ok(None)`. -/
def fetch_file (db : Db) (file_path : String) : Except DbAbort (Option MediaFileInfo) :=
  match db.library.find? (fun r => r.path == file_path) with
  | some info => .ok (some info)
  | none => .error .fetchNotFound

/-- The `library` row produced by the diesel insert in `insert_file`
(store assigns the id; `mbid` starts absent; `mtime` comes from the
candidate). -/
def newRow (freshId : Int) (info : NewMediaFileInfo) : MediaFileInfo :=
  { id := freshId
    path := info.path
    title := info.title
    artist := info.artist
    album := info.album
    track := info.track
    track_number := info.track_number
    duration := info.duration
    mbid := none
    mtime := info.mtime }

/-- `database.rs`: `DatabaseConnection::insert_file`. Modelled from the spec:
the `library` table's unique `path` constraint lives in the migrations, which
are not under `src/`; spec sections 4.3 and 6 state `path` is unique. A
violating insert makes the diesel call return an error, and the source calls
`.expect("Error saving new media file entry")` on it, i.e. panics; otherwise
the inserted row (with the store-assigned id) is returned. -/
def insert_file (db : Db) (freshId : Int) (info : NewMediaFileInfo) :
    Except DbAbort (MediaFileInfo × Db) :=
  if db.library.any (fun r => r.path == info.path) then
    .error .insertUniqueViolation
  else
    .ok (newRow freshId info,
         { db with library := db.library ++ [newRow freshId info] })

/-- The effect of the `update_file` SQL on one matching row: it sets exactly
the columns `title, artist, album, track, track_number, duration`. -/
def updSix (info : NewMediaFileInfo) (r : MediaFileInfo) : MediaFileInfo :=
  { r with
    title := info.title
    artist := info.artist
    album := info.album
    track := info.track
    track_number := info.track_number
    duration := info.duration }

/-- `database.rs`: `DatabaseConnection::update_file`. The SQL is
`UPDATE library SET title = $2, artist = $3, album = $4, track = $5,
track_number = $6, duration = $7 WHERE id = $1`; it returns the number of
affected rows. Note the statement writes neither `mbid` nor `mtime` nor
`path`. -/
def update_file (db : Db) (id : Int) (info : NewMediaFileInfo) : Nat × Db :=
  ((db.library.filter (fun r => r.id == id)).length,
   { db with
     library := db.library.map (fun r => if r.id == id then updSix info r else r) })

/-- `database.rs`: `DatabaseConnection::update_file_uuid`:
`UPDATE library SET mbid = $2 WHERE id = $1`. -/
def update_file_uuid (db : Db) (id : Int) (uuid : Uuid) : Db :=
  { db with
    library := db.library.map (fun r => if r.id == id then { r with mbid := some uuid } else r) }

/-- `database.rs`: `DatabaseConnection::get_acoustid_last_check`:
`SELECT last_check FROM acoustid_last_checks WHERE library_id = $1`;
an empty row set is `None`, otherwise the first row's timestamp. -/
def get_acoustid_last_check (db : Db) (id : Int) : Option Int :=
  (db.last_checks.find? (fun r => r.library_id == id)).map (fun r => r.last_check)

/-- `database.rs`: `DatabaseConnection::add_acoustid_last_check`:
`INSERT INTO acoustid_last_checks (library_id, last_check) VALUES ($1, $2)`. -/
def add_acoustid_last_check (db : Db) (library_id : Int) (current_time : Int) : Db :=
  { db with last_checks := db.last_checks ++ [⟨library_id, current_time⟩] }

/-- `database.rs`: `DatabaseConnection::update_acoustid_last_check`:
`UPDATE acoustid_last_checks SET last_check = $2 WHERE library_id = $1`. -/
def update_acoustid_last_check (db : Db) (library_id : Int) (current_time : Int) : Db :=
  { db with
    last_checks := db.last_checks.map
      (fun r => if r.library_id == library_id then { r with last_check := current_time } else r) }

/-- `basic_types.rs`: `ProcessorError` (payloads elided: they are only
carried for logging). -/
inductive ProcessorError
  | nothingUseful
  | apiKeyError
  | noFingerprintMatch
  | noAudioStream
  | hyperError
  | jsonError
  | ioError
  | threadError
  | mutexError
  | ffmpegError
  | chromaprintError
deriving Repr, DecidableEq

/-- `basic_types.rs`: `AcoustIdArtist`. -/
structure AcoustIdArtist where
  id : String
  name : String
deriving Repr, DecidableEq

/-- `basic_types.rs`: `AcoustIdRecording`. -/
structure AcoustIdRecording where
  duration : Option Int
  title : Option String
  id : Uuid
  artists : Option (List AcoustIdArtist)
deriving Repr, DecidableEq

/-- `basic_types.rs`: `AcoustIdResult`; the confidence `score` is an `f32`
in the source, modelled as a rational. -/
structure AcoustIdResult where
  recordings : Option (List AcoustIdRecording)
  score : Rat
  id : String
deriving Repr, DecidableEq

/-- `basic_types.rs`: `AcoustIdResponse`. -/
structure AcoustIdResponse where
  status : String
  results : Option (List AcoustIdResult)
deriving Repr, DecidableEq

/-- One insertion step of the stable sort in `AcoustId::handle_response`.
The comparator there returns `Greater` when `b.score > a.score`, `Less` when
`b.score < a.score` and `Equal` otherwise, so `sort_by` orders by strictly
descending score and, being a stable sort, keeps equal-score results in
first-seen order. Stable insertion realises the same order: an element moves
past exactly the earlier elements of strictly smaller score. -/
def sortInsert (x : AcoustIdResult) : List AcoustIdResult → List AcoustIdResult
  | [] => [x]
  | y :: ys => if y.score > x.score then y :: sortInsert x ys else x :: y :: ys

/-- The stable descending-score sort performed by
`results.sort_by(..)` in `AcoustId::handle_response`. -/
def sortResults : List AcoustIdResult → List AcoustIdResult
  | [] => []
  | x :: xs => sortInsert x (sortResults xs)

/-- `acoustid.rs`: `AcoustId::handle_response`. The input models the
`serde_json::from_slice` outcome: `Except.error` is a malformed (unparseable)
body, `Except.ok` the parsed `AcoustIdResponse`. A missing `results` field,
and an empty result list, both become `NoFingerprintMatch`; otherwise the
first element after the stable descending sort is returned. -/
def handle_response (input : Except Unit AcoustIdResponse) :
    Except ProcessorError AcoustIdResult :=
  match input with
  | .error _ => .error .jsonError
  | .ok v =>
    match v.results with
    | none => .error .noFingerprintMatch
    | some results =>
      match (sortResults results).head? with
      | none => .error .noFingerprintMatch
      | some first_result => .ok first_result

/-- `acoustid.rs`: the recording extraction in `AcoustId::parse_file`
(lines 124-129): the selected result's `recordings` field, absent or empty,
is `NoFingerprintMatch`; otherwise the first recording's id. -/
def extract_recording (result : AcoustIdResult) : Except ProcessorError (Option Uuid) :=
  match result.recordings with
  | none => .error .noFingerprintMatch
  | some [] => .error .noFingerprintMatch
  | some (first :: _) => .ok (some first.id)

/-- `acoustid.rs`: the `or_else` recovery at the end of `AcoustId::parse_file`
(lines 130-141): `NoAudioStream`, `NoFingerprintMatch` and `FFmpeg` errors
become the `Ok(None)` no-match outcome; every other error is kept. -/
def recover : ProcessorError → Except ProcessorError (Option Uuid)
  | .noAudioStream => .ok none
  | .noFingerprintMatch => .ok none
  | .ffmpegError => .ok none
  | e => .error e

deriving instance DecidableEq for Except

/-- The network outcome feeding `AcoustId::lookup`: either a hyper transport
failure, or a response body together with its JSON parse outcome. -/
inductive Transport
  | failure
  | response (body : Except Unit AcoustIdResponse)
deriving Repr, DecidableEq

/-- `acoustid.rs`: the identification pipeline of `AcoustId::parse_file`
from the point a fingerprint is available (the spec's section 4.2 `identify`
contract): `lookup` maps a transport failure to `HyperError` and otherwise
runs `handle_response`; the selected result goes through
`extract_recording`; the final `or_else` recovery turns no-match errors into
`Ok(None)`. -/
def identify : Transport → Except ProcessorError (Option Uuid)
  | .failure => recover .hyperError
  | .response body =>
    match handle_response body with
    | .error e => recover e
    | .ok result =>
      match extract_recording result with
      | .error e => recover e
      | .ok v => .ok v

/-- The outcome of one `AcoustId::parse_file` invocation as seen by the
reconciliation engine in `file_processor.rs`: a MusicBrainz id match, the
recovered no-match outcome, or a surviving error. -/
inductive LookupOutcome
  | matched (mbid : Uuid)
  | noMatch
  | failure (e : ProcessorError)
deriving Repr, DecidableEq

/-- The per-pass environment of one reconciliation: the wall clock
(`Utc::now().timestamp()`), the filesystem modification time
(`NewMediaFileInfo::get_mtime`), the metadata-read outcome
(`NewMediaFileInfo::read_file`, `None` for a non-valid file), the AcoustID
lookup outcome, and the id the store would assign to an inserted row. -/
structure EnvInputs where
  now : Int
  fsMtime : Option Int
  readResult : Option NewMediaFileInfo
  lk : LookupOutcome
  freshId : Int
deriving Repr, DecidableEq

/-- The observable side effects of one reconciliation pass. -/
inductive Event
  | lookupCall
  | insertFile (id : Int) (path : String)
  | updateFileCall (id : Int)
  | updateUuid (id : Int) (u : Uuid)
  | insertLastCheck (id : Int) (t : Int)
  | updateLastCheck (id : Int) (t : Int)
deriving Repr, DecidableEq

/-- The outcome of one `FileProcessor::call`: a media file value, a
`ProcessorError`, or a panic inside a database call. -/
inductive RunResult
  | ok (info : MediaFileInfo)
  | failed (e : ProcessorError)
  | aborted (p : DbAbort)
deriving Repr, DecidableEq

/-- `file_processor.rs`: `last_check.unwrap_or_else(|| Utc.timestamp(0, 0)).timestamp()` —
a missing last check is treated as the Unix epoch. -/
def timeOrEpoch : Option Int → Int
  | some t => t
  | none => 0

/-- `file_processor.rs`: the `check_fields!(title, artist, album, track,
track_number, duration)` comparison in `FileProcessor::update_path_entry`:
true when any of the six descriptive fields of the fresh metadata differs
from the stored row. `mtime` is deliberately not compared there. -/
def fieldsDiffer (info : NewMediaFileInfo) (db_info : MediaFileInfo) : Bool :=
  info.title != db_info.title || info.artist != db_info.artist ||
  info.album != db_info.album || info.track != db_info.track ||
  info.track_number != db_info.track_number || info.duration != db_info.duration

/-- `file_processor.rs`: `FileProcessor::handle_acoustid`. Reads the last
check for the row's id; if the elapsed time since it (missing treated as
epoch 0) is strictly below 1,209,600 seconds the pass stops with no lookup
and no write. Otherwise `AcoustId::parse_file` runs joined with a last-check
write — `update_acoustid_last_check` when a previous value existed,
`add_acoustid_last_check` when not; a match additionally writes the mbid via
`update_file_uuid`; the `NoFingerprintMatch` outcome is swallowed by the
`or_else`, while other lookup errors fail the pass (after both joined
futures ran). -/
def handle_acoustid (env : EnvInputs) (db : Db) (db_info : MediaFileInfo) :
    Except ProcessorError MediaFileInfo × Db × List Event :=
  if env.now - timeOrEpoch (get_acoustid_last_check db db_info.id) < 1209600 then
    (.ok db_info, db, [])
  else
    match env.lk, get_acoustid_last_check db db_info.id with
    | .matched mbid, some _ =>
      (.ok db_info,
       update_acoustid_last_check (update_file_uuid db db_info.id mbid) db_info.id env.now,
       [Event.lookupCall, Event.updateUuid db_info.id mbid,
        Event.updateLastCheck db_info.id env.now])
    | .matched mbid, none =>
      (.ok db_info,
       add_acoustid_last_check (update_file_uuid db db_info.id mbid) db_info.id env.now,
       [Event.lookupCall, Event.updateUuid db_info.id mbid,
        Event.insertLastCheck db_info.id env.now])
    | .noMatch, some _ =>
      (.ok db_info, update_acoustid_last_check db db_info.id env.now,
       [Event.lookupCall, Event.updateLastCheck db_info.id env.now])
    | .noMatch, none =>
      (.ok db_info, add_acoustid_last_check db db_info.id env.now,
       [Event.lookupCall, Event.insertLastCheck db_info.id env.now])
    | .failure e, some _ =>
      (.error e, update_acoustid_last_check db db_info.id env.now,
       [Event.lookupCall, Event.updateLastCheck db_info.id env.now])
    | .failure e, none =>
      (.error e, add_acoustid_last_check db db_info.id env.now,
       [Event.lookupCall, Event.insertLastCheck db_info.id env.now])

/-- `file_processor.rs`: `FileProcessor::update_path_entry`. Issues the
`update_file` write only when one of the six descriptive fields differs
(`fieldsDiffer`); then returns early when the stored row already carries an
mbid, and otherwise continues into `handle_acoustid`. The value flowing on
after an update carries the six freshly read fields (the source's later
revision re-fetches the row; `update_file` rewrites exactly those six
columns of it). -/
def update_path_entry (env : EnvInputs) (info : NewMediaFileInfo) (db : Db)
    (db_info : MediaFileInfo) : Except ProcessorError MediaFileInfo × Db × List Event :=
  match db_info.mbid, fieldsDiffer info db_info with
  | some _, true =>
    (.ok (updSix info db_info), (update_file db db_info.id info).2,
     [Event.updateFileCall db_info.id])
  | some _, false => (.ok db_info, db, [])
  | none, true =>
    match handle_acoustid env ((update_file db db_info.id info).2) (updSix info db_info) with
    | (r, db2, evs2) => (r, db2, Event.updateFileCall db_info.id :: evs2)
  | none, false => handle_acoustid env db db_info

/-- `file_processor.rs`: `FileProcessor::check_if_update_needed`. When the
filesystem mtime differs from the stored one the file is re-read
(`NewMediaFileInfo::read_file`; `None` fails the pass with `NothingUseful`)
and `update_path_entry` runs; with an unchanged mtime the pass goes straight
to `handle_acoustid` when the stored row has no mbid, and stops otherwise. -/
def check_if_update_needed (env : EnvInputs) (db : Db) (db_info : MediaFileInfo) :
    Except ProcessorError MediaFileInfo × Db × List Event :=
  if env.fsMtime != db_info.mtime then
    match env.readResult with
    | none => (.error .nothingUseful, db, [])
    | some info => update_path_entry env info db db_info
  else if db_info.mbid == none then
    handle_acoustid env db db_info
  else
    (.ok db_info, db, [])

/-- `file_processor.rs`: the body of `FileProcessor::insert_path_entry`
after the file was read successfully: insert the row (a panic inside
`insert_file` aborts the worker), then join `add_acoustid_last_check` with
the AcoustID lookup; a match writes the mbid, `NoFingerprintMatch` is
swallowed, other lookup errors fail the pass after the writes ran. -/
def insert_path_entry_core (env : EnvInputs) (db : Db) (info : NewMediaFileInfo) :
    RunResult × Db × List Event :=
  match insert_file db env.freshId info with
  | .error p => (.aborted p, db, [])
  | .ok (row, db1) =>
    match env.lk with
    | .matched mbid =>
      (.ok row, update_file_uuid (add_acoustid_last_check db1 row.id env.now) row.id mbid,
       [Event.insertFile row.id info.path, Event.insertLastCheck row.id env.now,
        Event.lookupCall, Event.updateUuid row.id mbid])
    | .noMatch =>
      (.ok row, add_acoustid_last_check db1 row.id env.now,
       [Event.insertFile row.id info.path, Event.insertLastCheck row.id env.now,
        Event.lookupCall])
    | .failure e =>
      (.failed e, add_acoustid_last_check db1 row.id env.now,
       [Event.insertFile row.id info.path, Event.insertLastCheck row.id env.now,
        Event.lookupCall])

/-- `file_processor.rs`: `FileProcessor::insert_path_entry`. Reads the file
(`None` is `NothingUseful`) and continues with the insert body. -/
def insert_path_entry (env : EnvInputs) (db : Db) : RunResult × Db × List Event :=
  match env.readResult with
  | none => (.failed .nothingUseful, db, [])
  | some info => insert_path_entry_core env db info

/-- `file_processor.rs`: `FileProcessor::call` — one reconciliation pass for
one path: fetch the stored entry by path (a panic inside `fetch_file` aborts
the worker), then branch to `check_if_update_needed` or
`insert_path_entry`. -/
def FileProcessor.call (env : EnvInputs) (db : Db) (path : String) :
    RunResult × Db × List Event :=
  match fetch_file db path with
  | .error p => (.aborted p, db, [])
  | .ok (some v) =>
    match check_if_update_needed env db v with
    | (.ok r, db1, evs) => (.ok r, db1, evs)
    | (.error e, db1, evs) => (.failed e, db1, evs)
  | .ok none => insert_path_entry env db

/-- One reconciliation pass (`FileProcessor::call`). -/
def runPass (env : EnvInputs) (db : Db) (path : String) : RunResult × Db × List Event :=
  FileProcessor.call env db path

/-- Repeated reconciliation of the same path, each pass with its own
environment; returns the final database and the concatenated effect trace. -/
def runPasses : List EnvInputs → Db → String → Db × List Event
  | [], db, _ => (db, [])
  | env :: rest, db, path =>
    ((runPasses rest (runPass env db path).2.1 path).1,
     (runPass env db path).2.2 ++ (runPasses rest (runPass env db path).2.1 path).2)

/-- True on the event that models an invocation of the identification
service (`AcoustId::parse_file`). -/
def isLookup : Event → Bool
  | .lookupCall => true
  | _ => false

/-- The identity view of a `library` row that the reconciliation engine is
never supposed to rewrite in one pass: id, path and mbid. -/
def trip (r : MediaFileInfo) : Int × String × Option Uuid :=
  (r.id, r.path, r.mbid)

/-- Modelled from the spec: the selection rule of section 3 — "the single
highest-score result; ties broken by first-seen order". Keeps the current
element unless a strictly higher-scoring one occurs later, so it yields the
first element attaining the maximum score. -/
def specSelectTop : List AcoustIdResult → Option AcoustIdResult
  | [] => none
  | x :: xs =>
    match specSelectTop xs with
    | none => some x
    | some y => if y.score > x.score then some y else some x

/-- Modelled from the spec: the section 4.2 condition under which the lookup
client reports the no-match outcome — "the parsed response contains zero
results, or the selected top result has no associated recordings". -/
def specNoMatchCondition : Transport → Bool
  | .failure => false
  | .response (.error _) => false
  | .response (.ok v) =>
    match v.results with
    | none => true
    | some rs =>
      match specSelectTop rs with
      | none => true
      | some top =>
        match top.recordings with
        | none => true
        | some [] => true
        | some (_ :: _) => false


/-! ### Generic helper lemmas about the embedded store operations -/

/-- A find? over a mapped list commutes with the map whenever the map does
not change the truth of the search predicate. -/
theorem find?_map_of_pred {α : Type} (f : α → α) (q : α → Bool)
    (hf : ∀ a, q (f a) = q a) :
    ∀ l : List α, (l.map f).find? q = (l.find? q).map f := by
  intro l
  induction l with
  | nil => rfl
  | cons a as ih =>
    simp only [List.map_cons, List.find?_cons]
    rw [hf a]
    cases h : q a with
    | true => rfl
    | false => exact ih

/-- Two libraries with the same id/path/mbid views agree, up to that view,
on any path search. -/
theorem find?_of_trip_map_eq (p : String) :
    ∀ (l1 l2 : List MediaFileInfo), l1.map trip = l2.map trip →
      (l1.find? (fun r => r.path == p)).map trip =
      (l2.find? (fun r => r.path == p)).map trip := by
  intro l1
  induction l1 with
  | nil =>
    intro l2 h
    cases l2 with
    | nil => rfl
    | cons b bs => simp at h
  | cons a as ih =>
    intro l2 h
    cases l2 with
    | nil => simp at h
    | cons b bs =>
      simp only [List.map_cons, List.cons.injEq] at h
      obtain ⟨hab, hrest⟩ := h
      have hpath : a.path = b.path := congrArg (fun t => t.2.1) hab
      simp only [List.find?_cons]
      rw [hpath]
      cases hq : b.path == p with
      | true => simpa using hab
      | false => exact ih bs hrest

/-- fetch_file succeeds with a row exactly when the path search finds
that row. -/
theorem fetch_file_ok_iff (db : Db) (p : String) (v : MediaFileInfo) :
    fetch_file db p = .ok (some v) ↔
      db.library.find? (fun r => r.path == p) = some v := by
  unfold fetch_file
  cases h : db.library.find? (fun r => r.path == p) with
  | none => simp
  | some w => simp

/-- The row fetch_file returns carries the searched path. -/
theorem fetch_file_path (db : Db) (p : String) (v : MediaFileInfo)
    (h : fetch_file db p = .ok (some v)) : v.path = p := by
  have hfind := (fetch_file_ok_iff db p v).mp h
  have hp := List.find?_some hfind
  simpa using hp

/-- update_file does not change the id/path/mbid view of the library. -/
theorem trip_map_update_file (db : Db) (id : Int) (info : NewMediaFileInfo) :
    ((update_file db id info).2).library.map trip = db.library.map trip := by
  show (db.library.map _).map trip = db.library.map trip
  rw [List.map_map]
  apply List.map_congr_left
  intro r _
  by_cases h : (r.id == id) = true
  · simp only [Function.comp, h, if_true]
    rfl
  · simp only [Bool.not_eq_true] at h
    simp [Function.comp, h]

/-- When a pass finds a stored row, FileProcessor::call is
check_if_update_needed on that row, up to wrapping the value outcome. -/
theorem call_fetch_some (env : EnvInputs) (db : Db) (path : String) (v : MediaFileInfo)
    (hf : fetch_file db path = .ok (some v)) :
    (runPass env db path).2 = (check_if_update_needed env db v).2 := by
  unfold runPass FileProcessor.call
  rw [hf]
  rcases h : check_if_update_needed env db v with ⟨r, db1, evs⟩
  cases r <;> simp [h]

/-- Library writes do not touch the last-check table. -/
theorem get_lc_update_file (db : Db) (i : Int) (info : NewMediaFileInfo) (j : Int) :
    get_acoustid_last_check ((update_file db i info).2) j =
      get_acoustid_last_check db j := rfl

/-- The mbid write does not touch the last-check table. -/
theorem get_lc_update_file_uuid (db : Db) (i : Int) (u : Uuid) (j : Int) :
    get_acoustid_last_check (update_file_uuid db i u) j =
      get_acoustid_last_check db j := rfl

/-- The last-check update map keeps the searched id, so the search commutes
with it. -/
theorem lc_find_update (l : List LastCheckRow) (id t : Int) :
    (l.map (fun r => if r.library_id == id then { r with last_check := t } else r)).find?
      (fun r => r.library_id == id) =
    (l.find? (fun r => r.library_id == id)).map
      (fun r => if r.library_id == id then { r with last_check := t } else r) := by
  apply find?_map_of_pred
  intro a
  by_cases ha : (a.library_id == id) = true
  · simp [ha]
  · simp only [Bool.not_eq_true] at ha
    simp [ha]

/-- After update_acoustid_last_check on an id that had a record, the stored
last check is the new timestamp. -/
theorem get_after_update_lc (db : Db) (id t lc : Int)
    (h : get_acoustid_last_check db id = some lc) :
    get_acoustid_last_check (update_acoustid_last_check db id t) id = some t := by
  simp only [get_acoustid_last_check, update_acoustid_last_check] at h ⊢
  rw [lc_find_update]
  rcases hfind : db.last_checks.find? (fun r => r.library_id == id) with _ | row
  · simp [hfind] at h
  · have hq := List.find?_some hfind
    have hq' : row.library_id = id := by simpa using hq
    simp [hfind, hq']

/-- After add_acoustid_last_check on an id that had no record, the stored
last check is the new timestamp. -/
theorem get_after_add_lc (db : Db) (id t : Int)
    (h : get_acoustid_last_check db id = none) :
    get_acoustid_last_check (add_acoustid_last_check db id t) id = some t := by
  simp only [get_acoustid_last_check, add_acoustid_last_check] at h ⊢
  rw [List.find?_append]
  rcases hf : db.last_checks.find? (fun r => r.library_id == id) with _ | row
  · simp [hf, List.find?]
  · simp [hf] at h

/-! ### Lemmas about the result selection in the lookup client -/

/-- The head of one stable insertion step. -/
theorem sortInsert_head (x : AcoustIdResult) (l : List AcoustIdResult) :
    (sortInsert x l).head? =
      match l.head? with
      | none => some x
      | some y => if y.score > x.score then some y else some x := by
  cases l with
  | nil => rfl
  | cons y ys =>
    simp only [sortInsert, List.head?_cons]
    by_cases h : y.score > x.score
    · simp [h]
    · simp [h]

/-- The head of the stable descending sort is the spec's selection: the
first-seen result of maximal score. -/
theorem head?_sortResults (l : List AcoustIdResult) :
    (sortResults l).head? = specSelectTop l := by
  induction l with
  | nil => rfl
  | cons x xs ih =>
    simp only [sortResults, specSelectTop, sortInsert_head, ih]

/-- The spec selection is empty exactly on the empty result list. -/
theorem specSelectTop_eq_none (l : List AcoustIdResult) :
    specSelectTop l = none ↔ l = [] := by
  cases l with
  | nil => simp [specSelectTop]
  | cons x xs =>
    simp only [specSelectTop]
    cases h : specSelectTop xs with
    | none => simp
    | some y =>
      by_cases hc : y.score > x.score
      · simp [hc]
      · simp [hc]

/-- The spec selection returns the first element attaining the maximum
score: the list splits around the returned element, every element scores at
most it, and every element before it scores strictly less. -/
theorem specSelectTop_first_max :
    ∀ (l : List AcoustIdResult), l ≠ [] →
      ∃ pre r post, specSelectTop l = some r ∧ l = pre ++ r :: post ∧
        (∀ t ∈ l, t.score ≤ r.score) ∧ (∀ t ∈ pre, t.score < r.score) := by
  intro l
  induction l with
  | nil => intro h; exact absurd rfl h
  | cons x xs ih =>
    intro _
    by_cases hxs : xs = []
    · subst hxs
      refine ⟨[], x, [], by simp [specSelectTop], rfl, ?_, by simp⟩
      intro t ht
      have : t = x := by simpa using ht
      simp [this]
    · obtain ⟨pre, r, post, h1, h2, h3, h4⟩ := ih hxs
      by_cases hcmp : r.score > x.score
      · refine ⟨x :: pre, r, post, ?_, ?_, ?_, ?_⟩
        · simp [specSelectTop, h1, hcmp]
        · simp [h2]
        · intro t ht
          rcases List.mem_cons.mp ht with h | h
          · subst h; exact le_of_lt hcmp
          · exact h3 t h
        · intro t ht
          rcases List.mem_cons.mp ht with h | h
          · subst h; exact hcmp
          · exact h4 t h
      · refine ⟨[], x, xs, ?_, rfl, ?_, by simp⟩
        · simp [specSelectTop, h1, hcmp]
        · intro t ht
          rcases List.mem_cons.mp ht with h | h
          · simp [h]
          · exact le_trans (h3 t h) (not_lt.mp hcmp)

/-! ### Lemmas about the reconciliation engine -/

/-- With a last check younger than two weeks, handle_acoustid is a no-op. -/
theorem handle_acoustid_recent (env : EnvInputs) (db : Db) (w : MediaFileInfo)
    (hrecent : env.now - timeOrEpoch (get_acoustid_last_check db w.id) < 1209600) :
    handle_acoustid env db w = (.ok w, db, []) := by
  unfold handle_acoustid
  rw [if_pos hrecent]

/-- With a stale (or epoch-defaulted) last check, handle_acoustid performs
exactly one lookup, records the last check in the form matching whether one
existed, and afterwards the stored last check is the pass's timestamp. -/
theorem handle_acoustid_stale (env : EnvInputs) (db : Db) (w : MediaFileInfo)
    (hstale : 1209600 ≤ env.now - timeOrEpoch (get_acoustid_last_check db w.id)) :
    (((handle_acoustid env db w).2.2).filter isLookup).length = 1 ∧
    (get_acoustid_last_check db w.id = none →
      Event.insertLastCheck w.id env.now ∈ (handle_acoustid env db w).2.2 ∧
      ∀ t, Event.updateLastCheck w.id t ∉ (handle_acoustid env db w).2.2) ∧
    (∀ lc, get_acoustid_last_check db w.id = some lc →
      Event.updateLastCheck w.id env.now ∈ (handle_acoustid env db w).2.2 ∧
      ∀ t, Event.insertLastCheck w.id t ∉ (handle_acoustid env db w).2.2) ∧
    get_acoustid_last_check ((handle_acoustid env db w).2.1) w.id = some env.now := by
  have hnot : ¬ (env.now - timeOrEpoch (get_acoustid_last_check db w.id) < 1209600) :=
    not_lt.mpr hstale
  unfold handle_acoustid
  rw [if_neg hnot]
  cases hlk : env.lk with
  | matched mbid =>
    rcases hlc : get_acoustid_last_check db w.id with _ | lc
    · refine ⟨by simp [isLookup], fun _ => ⟨by simp, fun t => by simp⟩, ?_, ?_⟩
      · intro lc' h
        simp at h
      · exact get_after_add_lc _ _ _ hlc
    · refine ⟨by simp [isLookup], by simp, ?_, ?_⟩
      · intro lc' h
        exact ⟨by simp, fun t => by simp⟩
      · exact get_after_update_lc _ _ _ _ hlc
  | noMatch =>
    rcases hlc : get_acoustid_last_check db w.id with _ | lc
    · refine ⟨by simp [isLookup], fun _ => ⟨by simp, fun t => by simp⟩, ?_, ?_⟩
      · intro lc' h
        simp at h
      · exact get_after_add_lc _ _ _ hlc
    · refine ⟨by simp [isLookup], by simp, ?_, ?_⟩
      · intro lc' h
        exact ⟨by simp, fun t => by simp⟩
      · exact get_after_update_lc _ _ _ _ hlc
  | failure e =>
    rcases hlc : get_acoustid_last_check db w.id with _ | lc
    · refine ⟨by simp [isLookup], fun _ => ⟨by simp, fun t => by simp⟩, ?_, ?_⟩
      · intro lc' h
        simp at h
      · exact get_after_add_lc _ _ _ hlc
    · refine ⟨by simp [isLookup], by simp, ?_, ?_⟩
      · intro lc' h
        exact ⟨by simp, fun t => by simp⟩
      · exact get_after_update_lc _ _ _ _ hlc

/-- handle_acoustid either leaves the library untouched or rewrites only the
mbid of the rows with the processed id. -/
theorem handle_acoustid_library (env : EnvInputs) (db : Db) (w : MediaFileInfo) :
    ((handle_acoustid env db w).2.1).library = db.library ∨
    ∃ u, ((handle_acoustid env db w).2.1).library =
      db.library.map (fun r => if r.id == w.id then { r with mbid := some u } else r) := by
  unfold handle_acoustid
  by_cases h : env.now - timeOrEpoch (get_acoustid_last_check db w.id) < 1209600
  · rw [if_pos h]
    left
    rfl
  · rw [if_neg h]
    cases hlk : env.lk with
    | matched mbid =>
      rcases hlc : get_acoustid_last_check db w.id with _ | lc
      · exact Or.inr ⟨mbid, rfl⟩
      · exact Or.inr ⟨mbid, rfl⟩
    | noMatch =>
      rcases hlc : get_acoustid_last_check db w.id with _ | lc
      · exact Or.inl rfl
      · exact Or.inl rfl
    | failure e =>
      rcases hlc : get_acoustid_last_check db w.id with _ | lc
      · exact Or.inl rfl
      · exact Or.inl rfl

/-- Route: unchanged mtime reduces the pass to the mbid test. -/
theorem check_route_mtime_eq (env : EnvInputs) (db : Db) (v : MediaFileInfo)
    (hmt : (env.fsMtime != v.mtime) = false) :
    check_if_update_needed env db v =
      if v.mbid == none then handle_acoustid env db v else (.ok v, db, []) := by
  unfold check_if_update_needed
  rw [if_neg (by simp [hmt])]

/-- Route: changed mtime and unreadable file fail the pass with no write. -/
theorem check_route_read_none (env : EnvInputs) (db : Db) (v : MediaFileInfo)
    (hmt : (env.fsMtime != v.mtime) = true) (hread : env.readResult = none) :
    check_if_update_needed env db v = (.error .nothingUseful, db, []) := by
  unfold check_if_update_needed
  rw [if_pos hmt, hread]

/-- Route: changed mtime with fresh metadata goes to update_path_entry. -/
theorem check_route_read_some (env : EnvInputs) (db : Db) (v : MediaFileInfo)
    (info : NewMediaFileInfo)
    (hmt : (env.fsMtime != v.mtime) = true) (hread : env.readResult = some info) :
    check_if_update_needed env db v = update_path_entry env info db v := by
  unfold check_if_update_needed
  rw [if_pos hmt, hread]

/-- Route: stored mbid present and differing fields: update only. -/
theorem upd_route_some_true (env : EnvInputs) (info : NewMediaFileInfo) (db : Db)
    (db_info : MediaFileInfo) (m : Uuid)
    (hm : db_info.mbid = some m) (hfd : fieldsDiffer info db_info = true) :
    update_path_entry env info db db_info =
      (.ok (updSix info db_info), (update_file db db_info.id info).2,
       [Event.updateFileCall db_info.id]) := by
  unfold update_path_entry
  rw [hm, hfd]

/-- Route: stored mbid present and equal fields: nothing happens. -/
theorem upd_route_some_false (env : EnvInputs) (info : NewMediaFileInfo) (db : Db)
    (db_info : MediaFileInfo) (m : Uuid)
    (hm : db_info.mbid = some m) (hfd : fieldsDiffer info db_info = false) :
    update_path_entry env info db db_info = (.ok db_info, db, []) := by
  unfold update_path_entry
  rw [hm, hfd]

/-- Route: no stored mbid and differing fields: update then lookup stage. -/
theorem upd_route_none_true (env : EnvInputs) (info : NewMediaFileInfo) (db : Db)
    (db_info : MediaFileInfo)
    (hm : db_info.mbid = none) (hfd : fieldsDiffer info db_info = true) :
    update_path_entry env info db db_info =
      ((handle_acoustid env ((update_file db db_info.id info).2) (updSix info db_info)).1,
       (handle_acoustid env ((update_file db db_info.id info).2) (updSix info db_info)).2.1,
       Event.updateFileCall db_info.id ::
         (handle_acoustid env ((update_file db db_info.id info).2) (updSix info db_info)).2.2) := by
  unfold update_path_entry
  rw [hm, hfd]

/-- Route: no stored mbid and equal fields: straight to the lookup stage. -/
theorem upd_route_none_false (env : EnvInputs) (info : NewMediaFileInfo) (db : Db)
    (db_info : MediaFileInfo)
    (hm : db_info.mbid = none) (hfd : fieldsDiffer info db_info = false) :
    update_path_entry env info db db_info = handle_acoustid env db db_info := by
  unfold update_path_entry
  rw [hm, hfd]

/-- A pass over a stored row that already carries an mbid never reaches the
lookup and preserves the id/path/mbid view of the library and the last-check
table. -/
theorem check_with_mbid (env : EnvInputs) (db : Db) (v : MediaFileInfo) (m : Uuid)
    (hm : v.mbid = some m) :
    Event.lookupCall ∉ (check_if_update_needed env db v).2.2 ∧
    ((check_if_update_needed env db v).2.1).library.map trip = db.library.map trip ∧
    ((check_if_update_needed env db v).2.1).last_checks = db.last_checks := by
  cases hmt : (env.fsMtime != v.mtime) with
  | false =>
    rw [check_route_mtime_eq env db v hmt, if_neg (by simp [hm])]
    exact ⟨by simp, rfl, rfl⟩
  | true =>
    cases hread : env.readResult with
    | none =>
      rw [check_route_read_none env db v hmt hread]
      exact ⟨by simp, rfl, rfl⟩
    | some info =>
      rw [check_route_read_some env db v info hmt hread]
      cases hfd : fieldsDiffer info v with
      | false =>
        rw [upd_route_some_false env info db v m hm hfd]
        exact ⟨by simp, rfl, rfl⟩
      | true =>
        rw [upd_route_some_true env info db v m hm hfd]
        exact ⟨by simp, trip_map_update_file db v.id info, rfl⟩

/-- A pass over a stored row with no mbid and a last check younger than two
weeks performs no lookup and leaves the last-check table unchanged. -/
theorem check_recent_no_lookup (env : EnvInputs) (db : Db) (v : MediaFileInfo) (lc : Int)
    (hm : v.mbid = none)
    (hlc : get_acoustid_last_check db v.id = some lc)
    (hrecent : env.now - lc < 1209600) :
    Event.lookupCall ∉ (check_if_update_needed env db v).2.2 ∧
    ((check_if_update_needed env db v).2.1).last_checks = db.last_checks := by
  have hrec : env.now - timeOrEpoch (get_acoustid_last_check db v.id) < 1209600 := by
    rw [hlc]
    exact hrecent
  cases hmt : (env.fsMtime != v.mtime) with
  | false =>
    rw [check_route_mtime_eq env db v hmt, if_pos (by simp [hm]),
      handle_acoustid_recent env db v hrec]
    exact ⟨by simp, rfl⟩
  | true =>
    cases hread : env.readResult with
    | none =>
      rw [check_route_read_none env db v hmt hread]
      exact ⟨by simp, rfl⟩
    | some info =>
      rw [check_route_read_some env db v info hmt hread]
      cases hfd : fieldsDiffer info v with
      | false =>
        rw [upd_route_none_false env info db v hm hfd,
          handle_acoustid_recent env db v hrec]
        exact ⟨by simp, rfl⟩
      | true =>
        have hrec2 : env.now -
            timeOrEpoch (get_acoustid_last_check ((update_file db v.id info).2)
              (updSix info v).id) < 1209600 := hrec
        rw [upd_route_none_true env info db v hm hfd,
          handle_acoustid_recent env ((update_file db v.id info).2) (updSix info v) hrec2]
        exact ⟨by simp, rfl⟩

/-- A pass over a stored row with no mbid and a stale or absent last check
(as the code measures it, missing treated as epoch 0) performs exactly one
lookup and writes the last check in the form matching whether one existed,
provided the pass does not die re-reading the file. -/
theorem check_stale_lookup (env : EnvInputs) (db : Db) (v : MediaFileInfo)
    (hm : v.mbid = none)
    (hstale : 1209600 ≤ env.now - timeOrEpoch (get_acoustid_last_check db v.id))
    (henv : env.fsMtime = v.mtime ∨ ∃ info, env.readResult = some info) :
    (((check_if_update_needed env db v).2.2).filter isLookup).length = 1 ∧
    (get_acoustid_last_check db v.id = none →
      Event.insertLastCheck v.id env.now ∈ (check_if_update_needed env db v).2.2 ∧
      ∀ t, Event.updateLastCheck v.id t ∉ (check_if_update_needed env db v).2.2) ∧
    (∀ lc, get_acoustid_last_check db v.id = some lc →
      Event.updateLastCheck v.id env.now ∈ (check_if_update_needed env db v).2.2 ∧
      ∀ t, Event.insertLastCheck v.id t ∉ (check_if_update_needed env db v).2.2) ∧
    get_acoustid_last_check ((check_if_update_needed env db v).2.1) v.id = some env.now := by
  cases hmt : (env.fsMtime != v.mtime) with
  | false =>
    rw [check_route_mtime_eq env db v hmt, if_pos (by simp [hm])]
    exact handle_acoustid_stale env db v hstale
  | true =>
    cases hread : env.readResult with
    | none =>
      exfalso
      rcases henv with h | ⟨info, h⟩
      · rw [h] at hmt
        simp at hmt
      · rw [hread] at h
        simp at h
    | some info =>
      rw [check_route_read_some env db v info hmt hread]
      cases hfd : fieldsDiffer info v with
      | false =>
        rw [upd_route_none_false env info db v hm hfd]
        exact handle_acoustid_stale env db v hstale
      | true =>
        rw [upd_route_none_true env info db v hm hfd]
        have h := handle_acoustid_stale env ((update_file db v.id info).2) (updSix info v) hstale
        refine ⟨?_, ?_, ?_, ?_⟩
        · simpa [isLookup] using h.1
        · intro hnone
          refine ⟨List.mem_cons_of_mem _ ((h.2.1 hnone).1), ?_⟩
          intro t
          have hnot := (h.2.1 hnone).2 t
          simp only [List.mem_cons]
          rintro (hc | hc)
          · exact Event.noConfusion hc
          · exact hnot hc
        · intro lc hsome
          refine ⟨List.mem_cons_of_mem _ ((h.2.2.1 lc hsome).1), ?_⟩
          intro t
          have hnot := (h.2.2.1 lc hsome).2 t
          simp only [List.mem_cons]
          rintro (hc | hc)
          · exact Event.noConfusion hc
          · exact hnot hc
        · exact h.2.2.2

/-! ### Claim theorems -/

/-- C10: for every id and candidate metadata value, update_file rewrites only
the six descriptive columns of the rows with that id: position by position,
every row keeps its id, path, mbid and mtime, a row with a different id is
completely untouched, and the last-check table is untouched. -/
theorem update_file_frame (db : Db) (id : Int) (info : NewMediaFileInfo) :
    List.Forall₂
      (fun r r' => r'.id = r.id ∧ r'.path = r.path ∧ r'.mbid = r.mbid ∧
        r'.mtime = r.mtime ∧ (r.id ≠ id → r' = r))
      db.library (((update_file db id info).2).library) ∧
    ((update_file db id info).2).last_checks = db.last_checks := by
  constructor
  · show List.Forall₂ _ db.library (db.library.map _)
    induction db.library with
    | nil => exact .nil
    | cons x xs ih =>
      refine .cons ?_ ih
      by_cases hx : x.id = id
      · have hb : (x.id == id) = true := by simp [hx]
        refine ⟨?_, ?_, ?_, ?_, ?_⟩ <;> simp [hb, updSix, hx]
      · have hb : (x.id == id) = false := by simp [hx]
        simp [hb, hx]
  · rfl

/-- Concrete catalog entry exercising the u32-to-i32 cast in to_document. -/
def bigEntry : MediaFileInfo :=
  { id := 1, path := "/big.mp3", title := none, artist := none, album := none,
    track := none, track_number := 2 ^ 31, duration := 2 ^ 31,
    mbid := none, mtime := none }

/-- C9 counterexample: an entry whose track_number is 2 to the 31st (a legal
u32 value) is mirrored into the document as minus 2 to the 31st — not the
same value, refuting the claim that the document carries the same
track_number and duration for every entry. -/
theorem to_document_wraps_large_u32 :
    bigEntry.track_number = 2 ^ 31 ∧
    bigEntry.to_document.track_number = -(2 ^ 31) ∧
    bigEntry.to_document.duration = -(2 ^ 31) := by
  decide

/-- C9 as amended: the document is keyed by the entry id and mirrors path,
title, artist, album and track; track_number and duration are carried through
the u32-to-i32 cast, hence equal to the stored values whenever those are
below 2 to the 31st; external_id is rendered as a string exactly when
present. -/
theorem to_document_mirrors_fields (v : MediaFileInfo)
    (htn : v.track_number < 2 ^ 31) (hd : v.duration < 2 ^ 31) :
    (insert_document v.to_document).1 = v.id ∧
    v.to_document.path = v.path ∧ v.to_document.title = v.title ∧
    v.to_document.artist = v.artist ∧ v.to_document.album = v.album ∧
    v.to_document.track = v.track ∧
    v.to_document.track_number = (v.track_number : Int) ∧
    v.to_document.duration = (v.duration : Int) ∧
    (∀ u, v.mbid = some u → v.to_document.mbid = some (uuidToString u)) ∧
    (v.mbid = none → v.to_document.mbid = none) := by
  refine ⟨rfl, rfl, rfl, rfl, rfl, rfl, ?_, ?_, ?_, ?_⟩
  · show u32_as_i32 v.track_number = (v.track_number : Int)
    unfold u32_as_i32
    rw [if_pos htn]
  · show u32_as_i32 v.duration = (v.duration : Int)
    unfold u32_as_i32
    rw [if_pos hd]
  · intro u hu
    simp [MediaFileInfo.to_document, hu]
  · intro hu
    simp [MediaFileInfo.to_document, hu]

/-- Concrete entry for the C9 witness. -/
def smallEntry : MediaFileInfo :=
  { id := 4, path := "/s.mp3", title := some "T", artist := some "A", album := none,
    track := none, track_number := 3, duration := 215000,
    mbid := some 42, mtime := some 7 }

/-- C9 witness: the amended mirror property evaluated at a concrete entry. -/
theorem to_document_mirrors_fields_witness :
    (insert_document smallEntry.to_document).1 = smallEntry.id ∧
    smallEntry.to_document.path = smallEntry.path ∧
    smallEntry.to_document.title = smallEntry.title ∧
    smallEntry.to_document.artist = smallEntry.artist ∧
    smallEntry.to_document.album = smallEntry.album ∧
    smallEntry.to_document.track = smallEntry.track ∧
    smallEntry.to_document.track_number = (smallEntry.track_number : Int) ∧
    smallEntry.to_document.duration = (smallEntry.duration : Int) ∧
    (∀ u, smallEntry.mbid = some u →
      smallEntry.to_document.mbid = some (uuidToString u)) ∧
    (smallEntry.mbid = none → smallEntry.to_document.mbid = none) :=
  to_document_mirrors_fields smallEntry (by decide) (by decide)

/-- The empty store and a pass environment for the C1 evaluation. -/
def emptyDb : Db := { library := [], last_checks := [] }

/-- Pass environment for the C1 evaluation. -/
def envC1 : EnvInputs :=
  { now := 100, fsMtime := some 1, readResult := none, lk := .noMatch, freshId := 1 }

/-- C1: the fetch-by-path operation can never return the absent outcome: for
every store and path it either panics (diesel NotFound hits the expect) or
returns a present row. In particular, on a never-seen path a reconciliation
pass aborts inside fetch_file — the insert branch of FileProcessor::call is
unreachable — as the concrete evaluation on the empty store shows. -/
theorem fetch_file_missing_path_panics :
    (∀ db p, fetch_file db p = .error .fetchNotFound ∨
      ∃ v, fetch_file db p = .ok (some v)) ∧
    fetch_file emptyDb "/never/seen.flac" = .error .fetchNotFound ∧
    runPass envC1 emptyDb "/never/seen.flac" = (.aborted .fetchNotFound, emptyDb, []) := by
  refine ⟨?_, by decide, by decide⟩
  intro db p
  unfold fetch_file
  cases h : db.library.find? (fun r => r.path == p) with
  | none => exact Or.inl rfl
  | some v => exact Or.inr ⟨v, rfl⟩

/-- Candidate whose path collides with a stored row, for C8. -/
def infoC8 : NewMediaFileInfo :=
  { path := "/a.mp3", title := some "T", artist := none, album := none,
    track := none, track_number := 1, duration := 900, mtime := some 10 }

/-- Stored row holding the path of infoC8, for C8. -/
def rowC8 : MediaFileInfo :=
  { id := 1, path := "/a.mp3", title := some "T", artist := none,
    album := none, track := none, track_number := 1, duration := 900,
    mbid := none, mtime := some 10 }

/-- Store already holding the path of infoC8, for C8. -/
def dbC8 : Db := { library := [rowC8], last_checks := [] }

/-- Pass environment whose metadata read yields infoC8, for C8. -/
def envC8 : EnvInputs :=
  { now := 100, fsMtime := some 10, readResult := some infoC8, lk := .noMatch,
    freshId := 7 }

/-- C8 counterexample: inserting a candidate whose path already has a row
does not yield a tolerated Conflict failure — insert_file hits its expect
(panics) and the insert branch of the pass aborts, leaving the store
unchanged and running nothing else; the reconciliation caller never sees a
swallowable typed conflict. -/
theorem insert_conflict_panics_concrete :
    insert_file dbC8 7 infoC8 = .error .insertUniqueViolation ∧
    insert_path_entry envC8 dbC8 = (.aborted .insertUniqueViolation, dbC8, []) := by
  constructor <;> decide

/-- Route: a pass in the insert branch whose insert panics aborts with the
store unchanged. -/
theorem insert_route_read_some (env : EnvInputs) (db : Db) (info : NewMediaFileInfo)
    (hread : env.readResult = some info) :
    insert_path_entry env db = insert_path_entry_core env db info := by
  unfold insert_path_entry
  rw [hread]

/-- Route: a pass in the insert branch whose insert panics aborts with the
store unchanged. -/
theorem insert_route_conflict (env : EnvInputs) (db : Db) (info : NewMediaFileInfo)
    (hread : env.readResult = some info)
    (hins : insert_file db env.freshId info = .error .insertUniqueViolation) :
    insert_path_entry env db = (.aborted .insertUniqueViolation, db, []) := by
  rw [insert_route_read_some env db info hread]
  unfold insert_path_entry_core
  rw [hins]

/-- C8 as amended: whenever insert runs for a candidate whose path already
has a catalog entry, the insert fails with the panic modelled by
insertUniqueViolation, the pass aborts (not tolerated), and the store is
unchanged. -/
theorem insert_conflict_aborts_pass (env : EnvInputs) (db : Db) (info : NewMediaFileInfo)
    (hread : env.readResult = some info)
    (hdup : db.library.any (fun r => r.path == info.path) = true) :
    insert_path_entry env db = (.aborted .insertUniqueViolation, db, []) := by
  apply insert_route_conflict env db info hread
  unfold insert_file
  rw [if_pos hdup]

/-- C8 witness: the amended conflict behaviour evaluated at concrete
inputs. -/
theorem insert_conflict_aborts_pass_witness :
    envC8.readResult = some infoC8 ∧
    dbC8.library.any (fun r => r.path == infoC8.path) = true ∧
    insert_path_entry envC8 dbC8 = (.aborted .insertUniqueViolation, dbC8, []) :=
  ⟨by decide, by decide, insert_conflict_aborts_pass envC8 dbC8 infoC8 (by decide) (by decide)⟩

/-- C2: for a stored entry whose mbid is already set, any number of
reconciliation passes over its path — whatever each pass's clock, filesystem
mtime, metadata read and lookup outcome are — never invokes the
identification service, and the entry (found again by the same path) still
has the same id and the same mbid; no pass clears or changes it. -/
theorem repeated_reconciliation_preserves_mbid (envs : List EnvInputs) (db : Db)
    (path : String) (v : MediaFileInfo) (m : Uuid)
    (hfetch : fetch_file db path = .ok (some v)) (hm : v.mbid = some m) :
    Event.lookupCall ∉ (runPasses envs db path).2 ∧
    ∃ v', fetch_file (runPasses envs db path).1 path = .ok (some v') ∧
      v'.id = v.id ∧ v'.mbid = some m := by
  induction envs generalizing db v with
  | nil => exact ⟨by simp [runPasses], v, hfetch, rfl, hm⟩
  | cons env rest ih =>
    have hfind := (fetch_file_ok_iff db path v).mp hfetch
    have hpair := call_fetch_some env db path v hfetch
    have hch := check_with_mbid env db v m hm
    have hdb1 : (runPass env db path).2.1 = (check_if_update_needed env db v).2.1 :=
      congrArg Prod.fst hpair
    have hevs1 : (runPass env db path).2.2 = (check_if_update_needed env db v).2.2 :=
      congrArg Prod.snd hpair
    have htrip : ((runPass env db path).2.1).library.map trip = db.library.map trip := by
      rw [hdb1]
      exact hch.2.1
    have hcorr := find?_of_trip_map_eq path ((runPass env db path).2.1).library db.library htrip
    rw [hfind] at hcorr
    rcases hf1 : ((runPass env db path).2.1).library.find? (fun r => r.path == path)
      with _ | v1
    · rw [hf1] at hcorr
      exact absurd hcorr.symm (by simp)
    · rw [hf1] at hcorr
      have htripv : trip v1 = trip v := by simpa using hcorr
      have hid : v1.id = v.id := congrArg (fun t => t.1) htripv
      have hmb : v1.mbid = v.mbid := congrArg (fun t => t.2.2) htripv
      have hm1 : v1.mbid = some m := by rw [hmb, hm]
      have hfetch1 : fetch_file (runPass env db path).2.1 path = .ok (some v1) :=
        (fetch_file_ok_iff _ path v1).mpr hf1
      obtain ⟨hrest_no, v', hv'fetch, hv'id, hv'm⟩ := ih (runPass env db path).2.1 v1 hfetch1 hm1
      constructor
    -- membership in the concatenated trace
      · show Event.lookupCall ∉
          (runPass env db path).2.2 ++ (runPasses rest (runPass env db path).2.1 path).2
        rw [hevs1]
        intro hmem
        rcases List.mem_append.mp hmem with hc | hc
        · exact hch.1 hc
        · exact hrest_no hc
      · exact ⟨v', hv'fetch, by rw [hv'id, hid], hv'm⟩

/-- Stored row with an mbid for the C2 witness. -/
def rowC2 : MediaFileInfo :=
  { id := 2, path := "/b.mp3", title := some "T", artist := none, album := none,
    track := none, track_number := 1, duration := 100, mbid := some 42, mtime := some 5 }

/-- Store for the C2 witness. -/
def dbC2 : Db := { library := [rowC2], last_checks := [] }

/-- Fresh metadata read in the first C2 witness pass. -/
def infoC2 : NewMediaFileInfo :=
  { path := "/b.mp3", title := some "U", artist := none, album := none,
    track := none, track_number := 1, duration := 100, mtime := some 9 }

/-- Two passes (one with a changed mtime and a would-be match, one
unchanged) for the C2 witness. -/
def envsC2 : List EnvInputs :=
  [{ now := 2000000, fsMtime := some 9, readResult := some infoC2,
     lk := .matched 7, freshId := 3 },
   { now := 4000000, fsMtime := some 9, readResult := none, lk := .noMatch,
     freshId := 4 }]

/-- C2 witness: the mbid-preservation theorem evaluated on two concrete
passes over a store whose entry has mbid 42. -/
theorem repeated_reconciliation_preserves_mbid_witness :
    Event.lookupCall ∉ (runPasses envsC2 dbC2 "/b.mp3").2 ∧
    ∃ v', fetch_file (runPasses envsC2 dbC2 "/b.mp3").1 "/b.mp3" = .ok (some v') ∧
      v'.id = rowC2.id ∧ v'.mbid = some 42 :=
  repeated_reconciliation_preserves_mbid envsC2 dbC2 "/b.mp3" rowC2 42
    (by decide) (by decide)

/-- C3: for a stored entry with no mbid whose recorded last check is less
than 1,209,600 seconds before the pass's clock, one reconciliation pass
performs no lookup call and leaves the last-check table exactly as it was
(no record written). -/
theorem recent_last_check_no_lookup (env : EnvInputs) (db : Db) (path : String)
    (v : MediaFileInfo) (lc : Int)
    (hfetch : fetch_file db path = .ok (some v)) (hm : v.mbid = none)
    (hlc : get_acoustid_last_check db v.id = some lc)
    (hrecent : env.now - lc < 1209600) :
    Event.lookupCall ∉ (runPass env db path).2.2 ∧
    ((runPass env db path).2.1).last_checks = db.last_checks := by
  have hpair := call_fetch_some env db path v hfetch
  have h := check_recent_no_lookup env db v lc hm hlc hrecent
  constructor
  · rw [congrArg Prod.snd hpair]
    exact h.1
  · rw [congrArg Prod.fst hpair]
    exact h.2

/-- Stored row with no mbid for the C3 witness. -/
def rowC3 : MediaFileInfo :=
  { id := 1, path := "/c3.mp3", title := some "T", artist := none, album := none,
    track := none, track_number := 1, duration := 100, mbid := none, mtime := some 5 }

/-- Store with a fresh last check for the C3 witness. -/
def dbC3 : Db := { library := [rowC3], last_checks := [⟨1, 50⟩] }

/-- Pass environment for the C3 witness. -/
def envC3 : EnvInputs :=
  { now := 100, fsMtime := some 5, readResult := none, lk := .noMatch, freshId := 9 }

/-- C3 witness: the recent-check theorem evaluated on a concrete store whose
last check is 50 seconds before the pass's clock. -/
theorem recent_last_check_no_lookup_witness :
    Event.lookupCall ∉ (runPass envC3 dbC3 "/c3.mp3").2.2 ∧
    ((runPass envC3 dbC3 "/c3.mp3").2.1).last_checks = dbC3.last_checks :=
  recent_last_check_no_lookup envC3 dbC3 "/c3.mp3" rowC3 50
    (by decide) (by decide) (by decide) (by decide)

/-- Stored row with no mbid and no last check, for the C4 counterexample. -/
def rowC4 : MediaFileInfo :=
  { id := 1, path := "/c4.mp3", title := some "T", artist := none, album := none,
    track := none, track_number := 1, duration := 100, mbid := none, mtime := some 10 }

/-- Store for the C4 counterexample: no last-check record at all. -/
def dbC4 : Db := { library := [rowC4], last_checks := [] }

/-- Pass environment for the C4 counterexample: the clock reads 100 seconds
after the epoch. -/
def envC4 : EnvInputs :=
  { now := 100, fsMtime := some 10, readResult := none, lk := .noMatch, freshId := 2 }

/-- C4 counterexample: an entry with no mbid and an absent last check is,
per the claim, due for exactly one lookup and a last-check write; but with
the clock 100 seconds after the epoch the code computes elapsed = now minus
epoch = 100 < 1,209,600 (a missing check is epoch 0, not infinitely stale)
and the pass performs no lookup and writes nothing. -/
theorem absent_last_check_small_now_no_lookup :
    fetch_file dbC4 "/c4.mp3" = .ok (some rowC4) ∧
    rowC4.mbid = none ∧
    get_acoustid_last_check dbC4 rowC4.id = none ∧
    runPass envC4 dbC4 "/c4.mp3" = (.ok rowC4, dbC4, []) := by
  decide

/-- C4 as amended: for a stored entry with no mbid whose last check is at
least two weeks before the pass's clock — a missing last check counting as
the epoch, so "absent" qualifies only when the clock is at least 1,209,600
seconds past the epoch — a pass that does not die re-reading a changed file
performs exactly one lookup call and writes the last check: the insert form
when none existed, the update form when one did, regardless of the lookup
outcome; afterwards the stored last check equals the pass's clock. -/
theorem stale_or_absent_check_one_lookup (env : EnvInputs) (db : Db) (path : String)
    (v : MediaFileInfo)
    (hfetch : fetch_file db path = .ok (some v)) (hm : v.mbid = none)
    (hstale : 1209600 ≤ env.now - timeOrEpoch (get_acoustid_last_check db v.id))
    (henv : env.fsMtime = v.mtime ∨ ∃ info, env.readResult = some info) :
    (((runPass env db path).2.2).filter isLookup).length = 1 ∧
    (get_acoustid_last_check db v.id = none →
      Event.insertLastCheck v.id env.now ∈ (runPass env db path).2.2 ∧
      ∀ t, Event.updateLastCheck v.id t ∉ (runPass env db path).2.2) ∧
    (∀ lc, get_acoustid_last_check db v.id = some lc →
      Event.updateLastCheck v.id env.now ∈ (runPass env db path).2.2 ∧
      ∀ t, Event.insertLastCheck v.id t ∉ (runPass env db path).2.2) ∧
    get_acoustid_last_check ((runPass env db path).2.1) v.id = some env.now := by
  have hpair := call_fetch_some env db path v hfetch
  have h := check_stale_lookup env db v hm hstale henv
  rw [congrArg Prod.snd hpair, congrArg Prod.fst hpair]
  exact h

/-- Store with a two-weeks-old last check for the C4 witness. -/
def dbC4w : Db := { library := [rowC4], last_checks := [⟨1, 0⟩] }

/-- Pass environment for the C4 witness, clock well past two weeks. -/
def envC4w : EnvInputs :=
  { now := 2000000, fsMtime := some 10, readResult := none, lk := .noMatch, freshId := 2 }

/-- C4 witness: the amended staleness theorem evaluated on a concrete store
whose last check is 2,000,000 seconds before the pass's clock. -/
theorem stale_or_absent_check_one_lookup_witness :
    (((runPass envC4w dbC4w "/c4.mp3").2.2).filter isLookup).length = 1 ∧
    (get_acoustid_last_check dbC4w rowC4.id = none →
      Event.insertLastCheck rowC4.id envC4w.now ∈ (runPass envC4w dbC4w "/c4.mp3").2.2 ∧
      ∀ t, Event.updateLastCheck rowC4.id t ∉ (runPass envC4w dbC4w "/c4.mp3").2.2) ∧
    (∀ lc, get_acoustid_last_check dbC4w rowC4.id = some lc →
      Event.updateLastCheck rowC4.id envC4w.now ∈ (runPass envC4w dbC4w "/c4.mp3").2.2 ∧
      ∀ t, Event.insertLastCheck rowC4.id t ∉ (runPass envC4w dbC4w "/c4.mp3").2.2) ∧
    get_acoustid_last_check ((runPass envC4w dbC4w "/c4.mp3").2.1) rowC4.id =
      some envC4w.now :=
  stale_or_absent_check_one_lookup envC4w dbC4w "/c4.mp3" rowC4
    (by decide) (by decide) (by decide) (Or.inl (by decide))

/-- C5: for every non-empty result list, the response handler returns a
result of maximal score, and among equally scored maxima the one first in
the service's response order: the list splits as pre ++ selected :: post
with every element scoring at most the selected one and every element
before it scoring strictly less. -/
theorem handle_response_selects_first_max (status : String) (rs : List AcoustIdResult)
    (h : rs ≠ []) :
    ∃ pre r post,
      handle_response (.ok { status := status, results := some rs }) = .ok r ∧
      rs = pre ++ r :: post ∧ (∀ t ∈ rs, t.score ≤ r.score) ∧
      (∀ t ∈ pre, t.score < r.score) := by
  obtain ⟨pre, r, post, h1, h2, h3, h4⟩ := specSelectTop_first_max rs h
  refine ⟨pre, r, post, ?_, h2, h3, h4⟩
  show (match (sortResults rs).head? with
        | none => Except.error ProcessorError.noFingerprintMatch
        | some first_result => Except.ok first_result) = Except.ok r
  rw [show (sortResults rs).head? = some r from (head?_sortResults rs).trans h1]

/-- First lookup result for the C5 witness (score 0.7). -/
def recC5a : AcoustIdResult := { recordings := none, score := mkRat 7 10, id := "a" }

/-- Second lookup result for the C5 witness (score 0.95). -/
def recC5b : AcoustIdResult := { recordings := none, score := mkRat 19 20, id := "b" }

/-- Third lookup result for the C5 witness (score 0.95 again). -/
def recC5c : AcoustIdResult := { recordings := none, score := mkRat 19 20, id := "c" }

/-- C5 witness: the selection theorem evaluated on the spec's example score
list 0.7, 0.95, 0.95. -/
theorem handle_response_selects_first_max_witness :
    ∃ pre r post,
      handle_response (.ok { status := "ok", results := some [recC5a, recC5b, recC5c] })
        = .ok r ∧
      [recC5a, recC5b, recC5c] = pre ++ r :: post ∧
      (∀ t ∈ [recC5a, recC5b, recC5c], t.score ≤ r.score) ∧
      (∀ t ∈ pre, t.score < r.score) :=
  handle_response_selects_first_max "ok" [recC5a, recC5b, recC5c] (by decide)

/-- C6: the identification pipeline reports the no-match outcome (the
recovered Ok-with-no-id result, distinct from every error) exactly when the
spec's condition holds of the transport outcome — a parsed response with
zero results or whose selected top result has no recordings; a transport
failure surfaces as the hyper error and a malformed body as the JSON error,
both distinct from no match. -/
theorem identify_no_match_iff (t : Transport) :
    (identify t = .ok none ↔ specNoMatchCondition t = true) ∧
    identify .failure = .error .hyperError ∧
    (∀ e : Unit, identify (.response (.error e)) = .error .jsonError) := by
  refine ⟨?_, rfl, fun e => rfl⟩
  cases t with
  | failure => simp [identify, recover, specNoMatchCondition]
  | response body =>
    cases body with
    | error e => simp [identify, handle_response, recover, specNoMatchCondition]
    | ok v =>
      cases hres : v.results with
      | none =>
        simp [identify, handle_response, recover, specNoMatchCondition, hres]
      | some rs =>
        cases hsel : specSelectTop rs with
        | none =>
          have hrs : rs = [] := (specSelectTop_eq_none rs).mp hsel
          subst hrs
          simp [identify, handle_response, recover, specNoMatchCondition, hres,
            sortResults, hsel]
        | some top =>
          have hhead : (sortResults rs).head? = some top :=
            (head?_sortResults rs).trans hsel
          cases hrec : top.recordings with
          | none =>
            simp [identify, handle_response, recover, specNoMatchCondition,
              extract_recording, hres, hhead, hsel, hrec]
          | some l =>
            cases l with
            | nil =>
              simp [identify, handle_response, recover, specNoMatchCondition,
                extract_recording, hres, hhead, hsel, hrec]
            | cons f fs =>
              simp [identify, handle_response, recover, specNoMatchCondition,
                extract_recording, hres, hhead, hsel, hrec]

/-- After update_file on the fetched row's id, the path search returns that
row with exactly the six descriptive fields replaced. -/
theorem find?_after_update_file (db : Db) (p : String) (v : MediaFileInfo)
    (info : NewMediaFileInfo)
    (hfind : db.library.find? (fun r => r.path == p) = some v) :
    ((update_file db v.id info).2).library.find? (fun r => r.path == p) =
      some (updSix info v) := by
  show (db.library.map _).find? _ = _
  rw [find?_map_of_pred _ _ ?hpres, hfind]
  · show some (if v.id == v.id then updSix info v else v) = some (updSix info v)
    simp
  case hpres =>
    intro a
    by_cases ha : (a.id == v.id) = true
    · simp [ha, updSix]
    · simp only [Bool.not_eq_true] at ha
      simp [ha]

/-- The mbid rewrite of update_file_uuid keeps every path, so the path
search returns the same row up to its mbid. -/
theorem find?_after_uuid_map (l : List MediaFileInfo) (p : String) (wid : Int)
    (u : Uuid) (w : MediaFileInfo)
    (hfind : l.find? (fun r => r.path == p) = some w) :
    (l.map (fun r => if r.id == wid then { r with mbid := some u } else r)).find?
      (fun r => r.path == p) =
    some (if w.id == wid then { w with mbid := some u } else w) := by
  rw [find?_map_of_pred _ _ ?hpres, hfind]
  · rfl
  case hpres =>
    intro a
    by_cases ha : (a.id == wid) = true
    · simp [ha]
    · simp only [Bool.not_eq_true] at ha
      simp [ha]

/-- When the six-field comparison reports no difference, the fresh and the
stored descriptive fields are equal. -/
theorem fieldsDiffer_false (info : NewMediaFileInfo) (r : MediaFileInfo)
    (h : fieldsDiffer info r = false) :
    info.title = r.title ∧ info.artist = r.artist ∧ info.album = r.album ∧
    info.track = r.track ∧ info.track_number = r.track_number ∧
    info.duration = r.duration := by
  simp [fieldsDiffer, and_assoc] at h
  exact h

/-- C7 as amended: when the filesystem mtime differs from the stored one and
the file re-reads successfully, after one pass the entry found again by its
path carries exactly the freshly read title, artist, album, track,
track_number and duration (the write is skipped precisely when they already
all agree, with the same net state) — but its stored modification_time is
NOT refreshed: it still carries the value from before the pass, because the
update SQL never writes the mtime column. -/
theorem mtime_change_updates_six_fields (env : EnvInputs) (db : Db) (path : String)
    (v : MediaFileInfo) (info : NewMediaFileInfo)
    (hfetch : fetch_file db path = .ok (some v))
    (hmt : env.fsMtime ≠ v.mtime)
    (hread : env.readResult = some info) :
    ∃ v', fetch_file ((runPass env db path).2.1) path = .ok (some v') ∧
      v'.id = v.id ∧ v'.path = v.path ∧
      v'.title = info.title ∧ v'.artist = info.artist ∧ v'.album = info.album ∧
      v'.track = info.track ∧ v'.track_number = info.track_number ∧
      v'.duration = info.duration ∧ v'.mtime = v.mtime := by
  have hfind := (fetch_file_ok_iff db path v).mp hfetch
  have hmtb : (env.fsMtime != v.mtime) = true := by simpa using hmt
  have hpair := call_fetch_some env db path v hfetch
  have hdb1 : (runPass env db path).2.1 = (check_if_update_needed env db v).2.1 :=
    congrArg Prod.fst hpair
  rw [hdb1, check_route_read_some env db v info hmtb hread]
  rcases hmb : v.mbid with _ | m
  · cases hfd : fieldsDiffer info v with
    | false =>
      rw [upd_route_none_false env info db v hmb hfd]
      obtain ⟨e1, e2, e3, e4, e5, e6⟩ := fieldsDiffer_false info v hfd
      rcases handle_acoustid_library env db v with hl | ⟨u, hl⟩
      · refine ⟨v, ?_, rfl, rfl, e1.symm, e2.symm, e3.symm, e4.symm, e5.symm, e6.symm, rfl⟩
        apply (fetch_file_ok_iff _ path v).mpr
        rw [hl]
        exact hfind
      · have hfindnew := find?_after_uuid_map db.library path v.id u v hfind
        have hif : (if v.id == v.id then { v with mbid := some u } else v) =
            { v with mbid := some u } := by simp
        rw [hif] at hfindnew
        refine ⟨{ v with mbid := some u }, ?_, rfl, rfl, e1.symm, e2.symm, e3.symm,
          e4.symm, e5.symm, e6.symm, rfl⟩
        apply (fetch_file_ok_iff _ path _).mpr
        rw [hl]
        exact hfindnew
    | true =>
      rw [upd_route_none_true env info db v hmb hfd]
      rcases handle_acoustid_library env ((update_file db v.id info).2) (updSix info v)
        with hl | ⟨u, hl⟩
      · refine ⟨updSix info v, ?_, rfl, rfl, rfl, rfl, rfl, rfl, rfl, rfl, rfl⟩
        apply (fetch_file_ok_iff _ path _).mpr
        rw [hl]
        exact find?_after_update_file db path v info hfind
      · have hfindnew := find?_after_uuid_map ((update_file db v.id info).2).library path
          (updSix info v).id u (updSix info v) (find?_after_update_file db path v info hfind)
        have hif : (if (updSix info v).id == (updSix info v).id
            then { updSix info v with mbid := some u } else updSix info v) =
            { updSix info v with mbid := some u } := by simp
        rw [hif] at hfindnew
        refine ⟨{ updSix info v with mbid := some u }, ?_, rfl, rfl, rfl, rfl, rfl,
          rfl, rfl, rfl, rfl⟩
        apply (fetch_file_ok_iff _ path _).mpr
        rw [hl]
        exact hfindnew
  · cases hfd : fieldsDiffer info v with
    | false =>
      rw [upd_route_some_false env info db v m hmb hfd]
      obtain ⟨e1, e2, e3, e4, e5, e6⟩ := fieldsDiffer_false info v hfd
      exact ⟨v, hfetch, rfl, rfl, e1.symm, e2.symm, e3.symm, e4.symm, e5.symm, e6.symm, rfl⟩
    | true =>
      rw [upd_route_some_true env info db v m hmb hfd]
      refine ⟨updSix info v, ?_, rfl, rfl, rfl, rfl, rfl, rfl, rfl, rfl, rfl⟩
      apply (fetch_file_ok_iff _ path _).mpr
      exact find?_after_update_file db path v info hfind

/-- Stored row for the C7 counterexample: stored mtime 10. -/
def rowC7 : MediaFileInfo :=
  { id := 1, path := "/c7.mp3", title := some "Old", artist := none, album := none,
    track := none, track_number := 1, duration := 100, mbid := some 5, mtime := some 10 }

/-- Store for the C7 counterexample. -/
def dbC7 : Db := { library := [rowC7], last_checks := [] }

/-- Freshly read metadata for the C7 counterexample: new title, mtime 20. -/
def infoC7 : NewMediaFileInfo :=
  { path := "/c7.mp3", title := some "New", artist := none, album := none,
    track := none, track_number := 1, duration := 100, mtime := some 20 }

/-- Pass environment for the C7 counterexample: filesystem mtime 20 differs
from the stored 10. -/
def envC7 : EnvInputs :=
  { now := 100, fsMtime := some 20, readResult := some infoC7, lk := .noMatch,
    freshId := 3 }

/-- C7 counterexample: the file's mtime (20) differs from the stored one
(10) and the re-read succeeds, the pass does run the update (the stored
title becomes the fresh one), yet the stored modification_time afterwards is
still 10, not the freshly read 20 — refuting the claim that the pass updates
modification_time to the freshly read value. -/
theorem mtime_not_updated_counterexample :
    envC7.fsMtime = some 20 ∧ rowC7.mtime = some 10 ∧ infoC7.mtime = some 20 ∧
    ((runPass envC7 dbC7 "/c7.mp3").2.1).library.map (fun r => r.title) = [some "New"] ∧
    ((runPass envC7 dbC7 "/c7.mp3").2.1).library.map (fun r => r.mtime) = [some 10] := by
  decide

/-- C7 witness: the amended six-field update property evaluated on the
concrete changed-mtime store. -/
theorem mtime_change_updates_six_fields_witness :
    ∃ v', fetch_file ((runPass envC7 dbC7 "/c7.mp3").2.1) "/c7.mp3" = .ok (some v') ∧
      v'.id = rowC7.id ∧ v'.path = rowC7.path ∧
      v'.title = infoC7.title ∧ v'.artist = infoC7.artist ∧ v'.album = infoC7.album ∧
      v'.track = infoC7.track ∧ v'.track_number = infoC7.track_number ∧
      v'.duration = infoC7.duration ∧ v'.mtime = rowC7.mtime :=
  mtime_change_updates_six_fields envC7 dbC7 "/c7.mp3" rowC7 infoC7
    (by decide) (by decide) (by decide)
